import Mathlib

/-!
Verification of the DropMind backend persistence subsystem.

Shallow embedding of `src/backend/main.py` (FastAPI + SQLite backend).
The relational store is modelled as explicit lists of rows; each HTTP
handler becomes a Lean function from the database state (plus the
nondeterministic inputs the handler reads: current timestamp, random
uuid token, request headers/body) to the committed post-state and the
response outcome.  SQLite behaviour that the code relies on is modelled
explicitly: `PRAGMA foreign_keys = ON` together with the declared
`FOREIGN KEY (clipboard_id) REFERENCES clipboards(id)` makes writes of
a dangling `clipboard_id` fail with an `IntegrityError`; the `UNIQUE`
constraint on `clipboards.name` likewise; `ORDER BY` is a sort by the
stated keys.  Python runtime errors reached by the handlers (an
undefined name, `dict(None)`) are modelled as error outcomes.
-/

namespace DropMind

/-! ## String helpers (Python `str.split(sep, 1)`, `os.path.basename`,
`os.path.splitext`) -/

/-- Python `s.split(sep, 1)` restricted to the case used by the code:
returns `some (before, after)` when `sep` occurs in `s` (split at the
first occurrence), `none` when it does not (Python returns the
one-element list `[s]`). -/
def splitOnce (sep : Char) : List Char → Option (List Char × List Char)
  | [] => none
  | c :: cs =>
    if c = sep then some ([], cs)
    else match splitOnce sep cs with
      | some (l, r) => some (c :: l, r)
      | none => none

/-- Python `os.path.basename`: the suffix after the last `/`. -/
def basenameChars (s : List Char) : List Char :=
  s.foldl (fun acc c => if c = '/' then [] else acc ++ [c]) []

/-- Python `os.path.basename` on strings. -/
def basename (s : String) : String := ⟨basenameChars s.data⟩

/-- Index (from the start) of the last occurrence of `c`, if any. -/
def lastIdxOf (c : Char) (s : List Char) : Option Nat :=
  s.foldl (fun acc x => match acc with
    | some i => if x = c then some 0 else some (i + 1)
    | none => if x = c then some 0 else none) none |>.map (fun fromEnd => s.length - 1 - fromEnd)

/-- Python `os.path.splitext` on a bare filename (no directory part):
split at the last dot, except that a dot with only dots before it
(leading dots of a hidden file) does not start an extension. -/
def splitext (s : String) : String × String :=
  let cs := s.data
  match (List.range cs.length).filter (fun i => cs.get? i = some '.') |>.getLast? with
  | none => (s, "")
  | some i =>
    if (List.range i).any (fun j => cs.get? j ≠ some '.') then
      (⟨cs.take i⟩, ⟨cs.drop i⟩)
    else (s, "")

/-- Model of Python's `mimetypes.guess_extension` (a static
content-type → extension table; a representative fragment of the
stdlib table, including the historic `image/jpeg ↦ .jpe` quirk that
the code normalizes). Unknown types map to `none`. -/
def guess_extension (ct : String) : Option String :=
  if ct = "image/jpeg" then some ".jpe"
  else if ct = "image/png" then some ".png"
  else if ct = "image/gif" then some ".gif"
  else if ct = "text/plain" then some ".txt"
  else if ct = "text/html" then some ".html"
  else if ct = "application/pdf" then some ".pdf"
  else if ct = "application/zip" then some ".zip"
  else none

/-- Python truthiness of an optional string (`if s:`): `None` and the
empty string are falsy. -/
def pyTruthy : Option String → Bool
  | none => false
  | some s => s ≠ ""

/-! ## Data model (§3: `clipboards` and `messages` tables) -/

/-- A row of the `clipboards` table. -/
structure Clipboard where
  id : Nat
  name : String
  created_at : String
  deriving Repr, DecidableEq

/-- A row of the `messages` table.  `pinned` is stored as INTEGER 0/1
in SQLite; the code only ever writes 0 or 1, modelled as `Bool`. -/
structure Message where
  id : Nat
  text : Option String
  filename : Option String
  clipboard_id : Nat
  created_at : String
  updated_at : String
  pinned : Bool
  deriving Repr, DecidableEq

/-- The relational store: the two tables plus the AUTOINCREMENT
counters for the surrogate keys. -/
structure DB where
  clipboards : List Clipboard
  messages : List Message
  nextClipboardId : Nat
  nextMessageId : Nat
  deriving Repr, DecidableEq

/-- A fresh database file, before `startup` runs. -/
def DB.empty : DB := ⟨[], [], 1, 1⟩

/-- Error outcomes a handler can produce. -/
inductive Err where
  /-- `fastapi.HTTPException(status_code, detail)`. -/
  | httpError (code : Nat) (detail : String)
  /-- `sqlite3.IntegrityError` (UNIQUE or FOREIGN KEY violation). -/
  | integrityError (msg : String)
  /-- Python `NameError` (reference to an undefined name). -/
  | nameError (name : String)
  /-- Python `TypeError` (e.g. `dict(None)`). -/
  | typeError
  deriving Repr, DecidableEq

/-! ## Handlers -/

/-- `startup` (main.py 88–126): create tables, then
`INSERT OR IGNORE INTO clipboards (id, name, created_at) VALUES (1, 'main', ?)`.
The insert is ignored when it would violate the primary key (id 1
taken) or the UNIQUE name constraint (name "main" taken). -/
def startup (db : DB) (now : String) : DB :=
  if db.clipboards.any (fun c => c.id = 1 ∨ c.name = "main") then db
  else { db with
    clipboards := db.clipboards ++ [⟨1, "main", now⟩],
    nextClipboardId := max db.nextClipboardId 2 }

/-- `create_clipboard` (main.py 160–171): INSERT a new row; the UNIQUE
constraint on `name` raises `IntegrityError` on a duplicate name
(before commit, so the store is unchanged). -/
def create_clipboard (db : DB) (name now : String) :
    DB × Except Err Unit :=
  if db.clipboards.any (fun c => c.name = name) then
    (db, .error (.integrityError "UNIQUE constraint failed: clipboards.name"))
  else
    ({ db with
        clipboards := db.clipboards ++ [⟨db.nextClipboardId, name, now⟩]
        nextClipboardId := db.nextClipboardId + 1 },
      .ok ())

/-- `rename_clipboard` (main.py 173–182):
`UPDATE clipboards SET name = ? WHERE id = ?`; silently matches zero
rows when the id is absent; raises `IntegrityError` when the new name
is already used by a different row. -/
def rename_clipboard (db : DB) (cid : Nat) (name : String) :
    DB × Except Err Unit :=
  if db.clipboards.any (fun c => c.id = cid) ∧
      db.clipboards.any (fun c => c.name = name ∧ c.id ≠ cid) then
    (db, .error (.integrityError "UNIQUE constraint failed: clipboards.name"))
  else
    ({ db with clipboards := db.clipboards.map (fun c =>
        if c.id = cid then { c with name := name } else c) },
      .ok ())

/-- `delete_clipboard` (main.py 184–204): refuse id 1 with HTTP 400
before touching the store; otherwise delete the messages of the
clipboard, then the clipboard row, in one commit. -/
def delete_clipboard (db : DB) (cid : Nat) : DB × Except Err Unit :=
  if cid = 1 then
    (db, .error (.httpError 400 "Cannot delete main clipboard"))
  else
    ({ db with
        messages := db.messages.filter (fun m => m.clipboard_id ≠ cid)
        clipboards := db.clipboards.filter (fun c => c.id ≠ cid) },
      .ok ())

/-- Whether inserting or updating a message row to carry
`clipboard_id = cid` passes the enforced foreign key
(`PRAGMA foreign_keys = ON`, main.py 84, plus the
`FOREIGN KEY (clipboard_id) REFERENCES clipboards(id)` of the schema,
main.py 114). -/
def fkOk (db : DB) (cid : Nat) : Bool :=
  db.clipboards.any (fun c => c.id = cid)

/-- `create_message` (main.py 284–311): INSERT a text-only row; the
foreign key is checked by SQLite at the INSERT. On success the
handler returns the new row's fields. -/
def create_message (db : DB) (text : Option String) (cid : Nat) (now : String) :
    DB × Except Err Message :=
  if fkOk db cid then
    let m : Message := ⟨db.nextMessageId, text, none, cid, now, now, false⟩
    ({ db with
        messages := db.messages ++ [m]
        nextMessageId := db.nextMessageId + 1 },
      .ok m)
  else
    (db, .error (.integrityError "FOREIGN KEY constraint failed"))

/-- `update_message` (main.py 206–225):
`UPDATE messages SET text = ?, updated_at = ? WHERE id = ?`, commit,
then `SELECT` the row back and return `dict(row)`.  When the id is
absent the UPDATE matches nothing, the commit still happens, and
`fetchone()` returns `None`, so `dict(None)` raises `TypeError`. -/
def update_message (db : DB) (mid : Nat) (text now : String) :
    DB × Except Err Message :=
  let db' := { db with messages := db.messages.map (fun m =>
    if m.id = mid then { m with text := some text, updated_at := now } else m) }
  match db'.messages.find? (fun m => m.id = mid) with
  | some row => (db', .ok row)
  | none => (db', .error .typeError)

/-- `pin_message` (main.py 314–325):
`UPDATE messages SET pinned = ?, updated_at = ? WHERE id = ?`. -/
def pin_message (db : DB) (mid : Nat) (pinned : Bool) (now : String) :
    DB × Except Err Unit :=
  ({ db with messages := db.messages.map (fun m =>
      if m.id = mid then { m with pinned := pinned, updated_at := now } else m) },
    .ok ())

/-- `delete_message` (main.py 328–334): `DELETE FROM messages WHERE id = ?`. -/
def delete_message (db : DB) (mid : Nat) : DB × Except Err Unit :=
  ({ db with messages := db.messages.filter (fun m => m.id ≠ mid) }, .ok ())

/-- `move_message` (main.py 340–358):
`UPDATE messages SET clipboard_id = ?, updated_at = ? WHERE id = ?`.
When the UPDATE matches at least one row, SQLite checks the enforced
foreign key on the new `clipboard_id` and aborts the statement with
`IntegrityError` if the target clipboard does not exist (nothing is
committed); when it matches no row no check runs. -/
def move_message (db : DB) (mid cid : Nat) (now : String) :
    DB × Except Err Unit :=
  if db.messages.any (fun m => m.id = mid) ∧ ¬ fkOk db cid then
    (db, .error (.integrityError "FOREIGN KEY constraint failed"))
  else
    ({ db with messages := db.messages.map (fun m =>
        if m.id = mid then { m with clipboard_id := cid, updated_at := now } else m) },
      .ok ())

/-! ## File-backed create (main.py 364–492) -/

/-- The original name picked by `create_message_file` (main.py 379–380):
`x_filename if x_filename else file.filename`, then `os.path.basename`.
Python truthiness: an absent or empty `X-Filename` header falls back to
the multipart part's filename. -/
def multipart_original_name (xf : Option String) (ff : String) : String :=
  basename (if pyTruthy xf then xf.getD "" else ff)

/-- The stored filename composed by `create_message_file` (main.py
382–383): `f"{unique_id}_{original_name}"` with `unique_id =
uuid.uuid4().hex` (modelled as the parameter `tok`).  No extension
derivation happens on this path. -/
def multipart_filename (tok : String) (xf : Option String) (ff : String) : String :=
  tok ++ "_" ++ multipart_original_name xf ff

/-- `create_message_file` (main.py 364–415): multipart upload.  Writes
the blob to disk under `multipart_filename`, INSERTs the row (foreign
key checked by SQLite), returns the created row. `text = text or ""`. -/
def create_message_file (db : DB) (tok : String) (xf : Option String)
    (ff : String) (text : Option String) (cid : Nat) (now : String) :
    DB × Except Err Message :=
  let filename := multipart_filename tok xf ff
  if fkOk db cid then
    let m : Message := ⟨db.nextMessageId, some (text.getD ""), some filename,
      cid, now, now, false⟩
    ({ db with
        messages := db.messages ++ [m]
        nextMessageId := db.nextMessageId + 1 },
      .ok m)
  else
    (db, .error (.integrityError "FOREIGN KEY constraint failed"))

/-- The stored filename composed by `create_message_file_direct`
(main.py 443–459).  When a truthy `X-Filename` header is present:
basename it, split base/extension at the last dot, and only when the
extension is empty derive one from the `Content-Type` header via
`mimetypes.guess_extension` (normalizing `.jpe` to `.jpg`, empty when
no mapping exists); compose `f"{uuid.uuid4().hex}_{base}{ext}"`.
Otherwise derive the extension the same way and compose
`f"{uuid.uuid4().hex}{ext}"`. -/
def file_direct_filename (tok : String) (xf : Option String) (ct : String) :
    String :=
  if pyTruthy xf then
    let safe_name := basename (xf.getD "")
    let base := (splitext safe_name).1
    let ext0 := (splitext safe_name).2
    let ext :=
      if ext0 = "" then
        let e := (guess_extension ct).getD ""
        if e = ".jpe" then ".jpg" else e
      else ext0
    tok ++ "_" ++ base ++ ext
  else
    let e := (guess_extension ct).getD ""
    let ext := if e = ".jpe" then ".jpg" else e
    tok ++ ext

/-- `create_message_file_direct` (main.py 421–492): raw-body upload.
Rejects an empty body with HTTP 400 before any write; otherwise writes
the blob, INSERTs the row with `text = ""` (foreign key checked by
SQLite) and commits — and then building the response dict evaluates
`"text": text` where no name `text` is in scope in this function or at
module level, so every request that reaches the response raises
`NameError` (after the row is committed). -/
def create_message_file_direct (db : DB) (cid : Nat) (tok : String)
    (body : List UInt8) (ct : String) (xf : Option String) (now : String) :
    DB × Except Err Message :=
  if body = [] then
    (db, .error (.httpError 400 "Empty file body"))
  else
    let filename := file_direct_filename tok xf ct
    if fkOk db cid then
      let m : Message := ⟨db.nextMessageId, some "", some filename,
        cid, now, now, false⟩
      ({ db with
          messages := db.messages ++ [m]
          nextMessageId := db.nextMessageId + 1 },
        .error (.nameError "text"))
    else
      (db, .error (.integrityError "FOREIGN KEY constraint failed"))

/-! ## Query/Sort Engine (`list_messages`, main.py 231–282) -/

/-- A message row augmented with the derived display fields. -/
structure MessageOut where
  id : Nat
  text : Option String
  filename : Option String
  clipboard_id : Nat
  created_at : String
  updated_at : String
  pinned : Bool
  file_size : Option Nat
  original_filename : Option String
  deriving Repr, DecidableEq

/-- Display-name derivation (main.py 262–267):
`filename.split("_", 1)`; when the split yields two parts the second
is the display name, otherwise the whole stored filename. -/
def original_filename_of (f : String) : String :=
  match splitOnce '_' f.data with
  | some (_, r) => ⟨r⟩
  | none => f

/-- The filesystem under `/data/attachments`: maps a filename to its
byte size when the file exists (`os.path.exists` / `os.path.getsize`,
main.py 273–276). -/
def Disk := String → Option Nat

/-- Row augmentation in `list_messages` (main.py 258–280): attach
`original_filename` and `file_size`; both `None` when the row has no
truthy filename. -/
def augment (disk : Disk) (m : Message) : MessageOut :=
  { id := m.id, text := m.text, filename := m.filename
    clipboard_id := m.clipboard_id, created_at := m.created_at
    updated_at := m.updated_at, pinned := m.pinned
    original_filename :=
      if pyTruthy m.filename then some (original_filename_of (m.filename.getD ""))
      else none
    file_size :=
      if pyTruthy m.filename then disk (m.filename.getD "") else none }

/-- The SQL `ORDER BY` comparator of `list_messages` (main.py 246–251):
always `pinned DESC` first, then `updated_at DESC` for `"activity"`,
`created_at ASC` for `"asc"`/`"oldest"`, `created_at DESC` otherwise
(SQLite compares the ISO-8601 TEXT timestamps lexicographically). -/
def msgLE (order : String) (a b : Message) : Bool :=
  if a.pinned ≠ b.pinned then a.pinned
  else if order = "activity" then decide (b.updated_at ≤ a.updated_at)
  else if order = "asc" ∨ order = "oldest" then decide (a.created_at ≤ b.created_at)
  else decide (b.created_at ≤ a.created_at)

/-- `list_messages` (main.py 231–282): optional clipboard filter, sort
per `msgLE`, then augment each row with the derived fields. -/
def list_messages (db : DB) (disk : Disk) (cid : Option Nat) (order : String) :
    List MessageOut :=
  let rows : List Message := match cid with
    | some c => db.messages.filter (fun m => m.clipboard_id = c)
    | none => db.messages
  (rows.mergeSort (msgLE order)).map (augment disk)

/-! ## File download and its two auth channels (main.py 57–64, 498–518) -/

/-- `verify_token` (main.py 57–64): requires an `Authorization` header
starting with `"Bearer "`; the part after the first space
(`authorization.split(" ", 1)[1]`) must equal the configured token. -/
def verify_token (api_token : String) (authorization : Option String) :
    Except Err Unit :=
  match authorization with
  | none => .error (.httpError 401 "Missing token")
  | some a =>
    if "Bearer ".data.isPrefixOf a.data then
      let token : String := match splitOnce ' ' a.data with
        | some (_, r) => ⟨r⟩
        | none => ""  -- unreachable: `a` starts with "Bearer ", which contains a space
      if token = api_token then .ok ()
      else .error (.httpError 403 "Invalid token")
    else .error (.httpError 401 "Missing token")

/-- `get_file` (main.py 498–518): a 500 guard on a missing configured
token, then `if token:` — a truthy `token` query parameter is compared
against the configured token and the `Authorization` header is never
read; a `None` or empty `token` falls back to `verify_token` on the
header.  On success the file is served, 404 when absent from disk. -/
def get_file (api_token : String) (disk : Disk) (filename : String)
    (token : Option String) (authorization : Option String) :
    Except Err String :=
  if api_token = "" then .error (.httpError 500 "API token not configured")
  else
    let auth : Except Err Unit :=
      if pyTruthy token then
        if token.getD "" = api_token then .ok ()
        else .error (.httpError 403 "Invalid token")
      else verify_token api_token authorization
    match auth with
    | .error e => .error e
    | .ok _ =>
      if (disk filename).isSome then .ok filename
      else .error (.httpError 404 "File not found")

/-! ## The state machine over the mutating operations -/

/-- One inbound mutating request, with the nondeterministic inputs the
handler reads (timestamps, uuid tokens, headers, body). -/
inductive Op where
  | createClipboard (name now : String)
  | renameClipboard (cid : Nat) (name : String)
  | deleteClipboard (cid : Nat)
  | createMessage (text : Option String) (cid : Nat) (now : String)
  | updateMessage (mid : Nat) (text now : String)
  | pinMessage (mid : Nat) (pinned : Bool) (now : String)
  | deleteMessage (mid : Nat)
  | moveMessage (mid cid : Nat) (now : String)
  | createMessageFile (tok : String) (xf : Option String) (ff : String)
      (text : Option String) (cid : Nat) (now : String)
  | createMessageFileDirect (cid : Nat) (tok : String) (body : List UInt8)
      (ct : String) (xf : Option String) (now : String)

/-- The committed database state after handling one request (the first
component of each handler: what the store holds after the request,
whether the response was a success or an error). -/
def applyOp (db : DB) : Op → DB
  | .createClipboard name now => (create_clipboard db name now).1
  | .renameClipboard cid name => (rename_clipboard db cid name).1
  | .deleteClipboard cid => (delete_clipboard db cid).1
  | .createMessage text cid now => (create_message db text cid now).1
  | .updateMessage mid text now => (update_message db mid text now).1
  | .pinMessage mid pinned now => (pin_message db mid pinned now).1
  | .deleteMessage mid => (delete_message db mid).1
  | .moveMessage mid cid now => (move_message db mid cid now).1
  | .createMessageFile tok xf ff text cid now =>
      (create_message_file db tok xf ff text cid now).1
  | .createMessageFileDirect cid tok body ct xf now =>
      (create_message_file_direct db cid tok body ct xf now).1

/-- States reachable from process start: `startup` on a fresh database,
then any sequence of requests. -/
inductive Reachable : DB → Prop where
  | init (now : String) : Reachable (startup DB.empty now)
  | step {db : DB} (op : Op) : Reachable db → Reachable (applyOp db op)

/-! ## Helper lemmas -/

/-- Splitting at the first separator of `l ++ sep :: r` recovers `l`
and `r` when `l` is separator-free. -/
theorem splitOnce_append {sep : Char} {l : List Char} (h : sep ∉ l)
    (r : List Char) : splitOnce sep (l ++ sep :: r) = some (l, r) := by
  induction l with
  | nil => simp [splitOnce]
  | cons c cs ih =>
    rw [List.mem_cons, not_or] at h
    have hne : ¬ c = sep := fun hc => h.1 hc.symm
    simp [splitOnce, hne, ih h.2]

/-! ## Claim C3 -/

/-- Claim C3 (code_bug evidence): `updateText` on an id that matches no
message row leaves every message row (indeed the whole store) unchanged,
but it does not succeed silently — `fetchone()` returns `None` and
`dict(None)` raises `TypeError`, so the handler errors out. -/
theorem c3_update_missing_id_raises_type_error (db : DB) (mid : Nat)
    (text now : String) (h : ∀ m ∈ db.messages, m.id ≠ mid) :
    update_message db mid text now = (db, .error .typeError) := by
  unfold update_message
  have hmap : db.messages.map (fun m =>
      if m.id = mid then { m with text := some text, updated_at := now } else m)
      = db.messages := by
    have step : db.messages.map (fun m =>
        if m.id = mid then { m with text := some text, updated_at := now } else m)
        = db.messages.map id :=
      List.map_congr_left (fun m hm => by rw [if_neg (h m hm)]; rfl)
    rw [step, List.map_id]
  have hfind : db.messages.find? (fun m => m.id = mid) = none := by
    rw [List.find?_eq_none]
    intro m hm
    simp [h m hm]
  simp only [hmap, hfind]

/-- Witness for C3 at a concrete store (the startup state, which holds
no messages) and the absent id 999. -/
theorem c3_update_missing_id_raises_type_error_witness :
    update_message (startup DB.empty "t0") 999 "new text" "t1"
      = (startup DB.empty "t0", .error .typeError) :=
  c3_update_missing_id_raises_type_error (startup DB.empty "t0") 999
    "new text" "t1" (by intro m hm; simp [startup, DB.empty] at hm)

/-! ## Claim C2 -/

/-- Claim C2 (code_bug evidence): the raw-body upload endpoint never
returns a created message.  An empty body is rejected with HTTP 400; a
dangling clipboard id fails the enforced foreign key; and every request
that reaches the response dict raises `NameError`, because the dict
evaluates `"text": text` and no name `text` is bound in
`create_message_file_direct` or at module level (the row is already
committed at that point). -/
theorem c2_file_direct_never_returns_message (db : DB) (cid : Nat)
    (tok : String) (body : List UInt8) (ct : String) (xf : Option String)
    (now : String) :
    (create_message_file_direct db cid tok body ct xf now).2
        = .error (.httpError 400 "Empty file body")
      ∨ (create_message_file_direct db cid tok body ct xf now).2
        = .error (.nameError "text")
      ∨ (create_message_file_direct db cid tok body ct xf now).2
        = .error (.integrityError "FOREIGN KEY constraint failed") := by
  unfold create_message_file_direct
  split_ifs <;> simp

/-! ## Claim C4 -/

/-- Claim C4 counterexample: pinning a concrete message rewrites its
`updated_at` from `"t0"` to `"t1"`, so a pin toggle does not leave
`updated_at` unchanged. -/
theorem c4_counterexample :
    (pin_message
        { clipboards := [⟨1, "main", "t0"⟩],
          messages := [⟨1, some "hi", none, 1, "t0", "t0", false⟩],
          nextClipboardId := 2, nextMessageId := 2 }
        1 true "t1").1.messages
      = [⟨1, some "hi", none, 1, "t0", "t1", true⟩]
    ∧ ("t1" : String) ≠ "t0" := by
  constructor
  · rfl
  · decide

/-- Claim C4 amended: `setPinned` overwrites `pinned` and also
refreshes `updated_at` (exactly like text edits and clipboard moves);
all other fields of the targeted message, all other messages, and the
clipboards table are untouched, and the handler always reports
success. -/
theorem c4_pin_refreshes_updated_at (db : DB) (mid : Nat) (p : Bool)
    (now : String) :
    (∀ m ∈ db.messages, m.id = mid →
      { m with pinned := p, updated_at := now }
        ∈ (pin_message db mid p now).1.messages)
    ∧ (∀ m ∈ db.messages, m.id ≠ mid →
        m ∈ (pin_message db mid p now).1.messages)
    ∧ (pin_message db mid p now).1.clipboards = db.clipboards
    ∧ (pin_message db mid p now).2 = .ok () := by
  unfold pin_message
  refine ⟨?_, ?_, rfl, rfl⟩
  · intro m hm hid
    exact List.mem_map.mpr ⟨m, hm, by rw [if_pos hid]⟩
  · intro m hm hid
    exact List.mem_map.mpr ⟨m, hm, if_neg hid⟩

/-- Witness for C4 amended at the concrete one-message store. -/
theorem c4_pin_refreshes_updated_at_witness :
    (⟨1, some "hi", none, 1, "t0", "t1", true⟩ : Message)
      ∈ (pin_message
          { clipboards := [⟨1, "main", "t0"⟩],
            messages := [⟨1, some "hi", none, 1, "t0", "t0", false⟩],
            nextClipboardId := 2, nextMessageId := 2 }
          1 true "t1").1.messages :=
  (c4_pin_refreshes_updated_at
      { clipboards := [⟨1, "main", "t0"⟩],
        messages := [⟨1, some "hi", none, 1, "t0", "t0", false⟩],
        nextClipboardId := 2, nextMessageId := 2 }
      1 true "t1").1
    ⟨1, some "hi", none, 1, "t0", "t0", false⟩ (by simp) rfl

/-! ## Claim C9 -/

/-- Claim C9: round-trip of attachment naming.  For a multipart upload
that declares the original name `"report.pdf"`, the stored filename is
`tok ++ "_report.pdf"`; splitting it at the first underscore yields
exactly two parts (the split succeeds), the second being
`"report.pdf"`, and the display-name derivation used by
`list_messages` therefore recovers `"report.pdf"` — provided the
random hex token contains no underscore, which hex tokens never do. -/
theorem c9_roundtrip_report_pdf (tok ff : String) (h : '_' ∉ tok.data) :
    splitOnce '_' (multipart_filename tok (some "report.pdf") ff).data
        = some (tok.data, "report.pdf".data)
    ∧ original_filename_of (multipart_filename tok (some "report.pdf") ff)
        = "report.pdf" := by
  have hname : multipart_filename tok (some "report.pdf") ff
      = tok ++ "_" ++ "report.pdf" := rfl
  have hdata : (tok ++ "_" ++ "report.pdf").data
      = tok.data ++ '_' :: "report.pdf".data := by
    simp [String.data_append]
  have hsplit : splitOnce '_' (multipart_filename tok (some "report.pdf") ff).data
      = some (tok.data, "report.pdf".data) := by
    rw [hname, hdata]
    exact splitOnce_append h _
  refine ⟨hsplit, ?_⟩
  unfold original_filename_of
  rw [hsplit]

/-- Witness for C9 at a concrete 32-hex-digit token. -/
theorem c9_roundtrip_report_pdf_witness :
    splitOnce '_'
        (multipart_filename "0123456789abcdef0123456789abcdef"
          (some "report.pdf") "upload.bin").data
      = some ("0123456789abcdef0123456789abcdef".data, "report.pdf".data)
    ∧ original_filename_of
        (multipart_filename "0123456789abcdef0123456789abcdef"
          (some "report.pdf") "upload.bin")
      = "report.pdf" :=
  c9_roundtrip_report_pdf "0123456789abcdef0123456789abcdef" "upload.bin"
    (by decide)

/-! ## Claim C10 -/

/-- Claim C10 counterexample: with configured token `"secret"`, a
request to the download endpoint that carries the present-but-empty
query parameter `token=""` (an invalid token: it differs from
`"secret"`) together with a valid `Authorization: Bearer secret`
header is served successfully — the empty query token is falsy, so the
code falls back to the header channel instead of rejecting. -/
theorem c10_counterexample :
    get_file "secret" (fun _ => some 5) "f.txt" (some "")
        (some "Bearer secret") = .ok "f.txt"
    ∧ ("" : String) ≠ "secret" := by
  constructor
  · rfl
  · decide

/-- Claim C10 amended: when the `token` query parameter is present and
non-empty, the `Authorization` header is never consulted — the outcome
is identical for every header value, and an invalid non-empty query
token is rejected with HTTP 403 even when the request carries a valid
bearer header; the header channel is used only when the query
parameter is absent or empty. -/
theorem c10_nonempty_query_token_ignores_header (api tok fn : String)
    (disk : Disk) (auth auth' : Option String)
    (hapi : api ≠ "") (htok : tok ≠ "") :
    get_file api disk fn (some tok) auth = get_file api disk fn (some tok) auth'
    ∧ (tok ≠ api →
        get_file api disk fn (some tok) auth
          = .error (.httpError 403 "Invalid token")) := by
  have hT : pyTruthy (some tok) = true := by simp [pyTruthy, htok]
  constructor
  · unfold get_file
    rw [if_neg hapi, if_neg hapi, hT]
    simp
  · intro hne
    unfold get_file
    rw [if_neg hapi, hT]
    simp only [if_pos rfl, Option.getD_some]
    rw [if_neg hne]
    simp

/-- Witness for C10 amended: invalid query token `"bad"` with a valid
bearer header for secret `"secret"` is rejected with 403. -/
theorem c10_nonempty_query_token_ignores_header_witness :
    get_file "secret" (fun _ => some 5) "f.txt" (some "bad")
        (some "Bearer secret")
      = get_file "secret" (fun _ => some 5) "f.txt" (some "bad") none
    ∧ (("bad" : String) ≠ "secret" →
        get_file "secret" (fun _ => some 5) "f.txt" (some "bad")
            (some "Bearer secret")
          = .error (.httpError 403 "Invalid token")) :=
  c10_nonempty_query_token_ignores_header "secret" "bad" "f.txt"
    (fun _ => some 5) (some "Bearer secret") none (by decide) (by decide)

/-! ## Claim C5 -/

/-- Claim C5 counterexample: on the multipart entry point an upload
declaring the extension-less original name `"noext"` yields the stored
filename `"T_noext"` (token `"T"`), while the claimed composition with
a content-type-derived extension (declared content-type `"image/png"`)
would be `"T_noext.png"` — the multipart path performs no extension
derivation at all. -/
theorem c5_counterexample :
    (create_message_file (startup DB.empty "t0") "T" (some "noext")
        "upload.bin" none 1 "t1").2
      = .ok ⟨1, some "", some "T_noext", 1, "t1", "t1", false⟩
    ∧ "T" ++ "_" ++ "noext" ++ ((guess_extension "image/png").getD "")
        = "T_noext.png"
    ∧ ("T_noext" : String) ≠ "T_noext.png" := by
  refine ⟨rfl, rfl, by decide⟩

/-- Claim C5 amended: the extension derivation applies on the raw-body
entry point only.  There, when the truthy declared original name's
bare filename has no extension, the committed row's stored filename is
`"{token}_{base}{extension}"` with the extension looked up from the
declared content-type in the static MIME table (`.jpe` normalized to
`.jpg`, empty when no mapping exists); the multipart entry point uses
the bare original name verbatim with no derivation (see the
counterexample). -/
theorem c5_file_direct_derives_extension (db : DB) (cid : Nat)
    (tok : String) (body : List UInt8) (ct xf now : String)
    (hbody : body ≠ []) (hfk : fkOk db cid = true) (hxf : xf ≠ "")
    (hext : (splitext (basename xf)).2 = "") :
    (create_message_file_direct db cid tok body ct (some xf) now).1.messages
      = db.messages ++ [⟨db.nextMessageId, some "",
          some (tok ++ "_" ++ (splitext (basename xf)).1 ++
            (if (guess_extension ct).getD "" = ".jpe" then ".jpg"
             else (guess_extension ct).getD "")),
          cid, now, now, false⟩] := by
  unfold create_message_file_direct
  rw [if_neg hbody, if_pos hfk]
  unfold file_direct_filename
  have hT : pyTruthy (some xf) = true := by simp [pyTruthy, hxf]
  rw [hT]
  simp only [if_pos rfl, Option.getD_some, hext, if_pos rfl, if_true]

/-- Witness for C5 amended: raw-body upload of one byte with original
name `"photo"` and content-type `"image/jpeg"`, exercising the
`.jpe → .jpg` normalization. -/
theorem c5_file_direct_derives_extension_witness :
    (create_message_file_direct (startup DB.empty "t0") 1 "T" [1]
        "image/jpeg" (some "photo") "t1").1.messages
      = (startup DB.empty "t0").messages ++ [⟨1, some "",
          some ("T" ++ "_" ++ (splitext (basename "photo")).1 ++
            (if (guess_extension "image/jpeg").getD "" = ".jpe" then ".jpg"
             else (guess_extension "image/jpeg").getD "")),
          1, "t1", "t1", false⟩] :=
  c5_file_direct_derives_extension (startup DB.empty "t0") 1 "T" [1]
    "image/jpeg" "photo" "t1" (by decide) rfl (by decide) rfl

/-! ## Claim C6 -/

/-- Claim C6 counterexample: with the store holding only the default
clipboard (id 1) and one message (id 1), moving the message to the
non-existent clipboard 99 does not succeed — the enforced foreign key
(`PRAGMA foreign_keys = ON` plus the schema's FOREIGN KEY clause)
aborts the UPDATE with `IntegrityError`, leaving the store
unchanged. -/
theorem c6_counterexample :
    move_message
        { clipboards := [⟨1, "main", "t0"⟩],
          messages := [⟨1, some "hi", none, 1, "t0", "t0", false⟩],
          nextClipboardId := 2, nextMessageId := 2 }
        1 99 "t1"
      = ({ clipboards := [⟨1, "main", "t0"⟩],
           messages := [⟨1, some "hi", none, 1, "t0", "t0", false⟩],
           nextClipboardId := 2, nextMessageId := 2 },
         .error (.integrityError "FOREIGN KEY constraint failed")) := by
  rfl

/-- Claim C6 amended: the handler itself performs no existence
pre-check, but SQLite does.  When the target clipboard exists the move
succeeds, overwriting `clipboard_id` and refreshing `updated_at` on
the matching message and leaving the rest untouched; when the message
exists and the target clipboard does not, the UPDATE fails with a
foreign-key `IntegrityError` and the store is unchanged. -/
theorem c6_move_foreign_key_checked (db : DB) (mid cid : Nat) (now : String) :
    (fkOk db cid = true →
      (move_message db mid cid now).2 = .ok ()
      ∧ (∀ m ∈ db.messages, m.id = mid →
          { m with clipboard_id := cid, updated_at := now }
            ∈ (move_message db mid cid now).1.messages)
      ∧ (∀ m ∈ db.messages, m.id ≠ mid →
          m ∈ (move_message db mid cid now).1.messages))
    ∧ ((∃ m ∈ db.messages, m.id = mid) → fkOk db cid = false →
        move_message db mid cid now
          = (db, .error (.integrityError "FOREIGN KEY constraint failed"))) := by
  constructor
  · intro hfk
    unfold move_message
    rw [if_neg (fun hcon => hcon.2 hfk)]
    refine ⟨rfl, ?_, ?_⟩
    · intro m hm hid
      exact List.mem_map.mpr ⟨m, hm, by rw [if_pos hid]⟩
    · intro m hm hid
      exact List.mem_map.mpr ⟨m, hm, if_neg hid⟩
  · rintro ⟨m, hm, hid⟩ hfk
    unfold move_message
    rw [if_pos ⟨List.any_eq_true.mpr ⟨m, hm, by simp [hid]⟩, by simp [hfk]⟩]

/-- Witness for C6 amended at the startup store with one message:
moving it into the (existing) clipboard 1 succeeds and refreshes
`updated_at`. -/
theorem c6_move_foreign_key_checked_witness :
    ((⟨1, some "hi", none, 1, "t0", "t1", false⟩ : Message)
      ∈ (move_message
          { clipboards := [⟨1, "main", "t0"⟩],
            messages := [⟨1, some "hi", none, 1, "t0", "t0", false⟩],
            nextClipboardId := 2, nextMessageId := 2 }
          1 1 "t1").1.messages) :=
  ((c6_move_foreign_key_checked
      { clipboards := [⟨1, "main", "t0"⟩],
        messages := [⟨1, some "hi", none, 1, "t0", "t0", false⟩],
        nextClipboardId := 2, nextMessageId := 2 }
      1 1 "t1").1 rfl).2.1
    ⟨1, some "hi", none, 1, "t0", "t0", false⟩ (by simp) rfl

/-! ## Claim C8 -/

/-- Claim C8: deleting clipboard 1 always fails with the protected-
resource error and changes nothing; deleting any other clipboard
removes its row and every message whose `clipboard_id` equals it,
while every clipboard row and message of other clipboards survives. -/
theorem c8_delete_cascades_and_protects_main (db : DB) (cid : Nat) :
    delete_clipboard db 1
        = (db, .error (.httpError 400 "Cannot delete main clipboard"))
    ∧ (cid ≠ 1 →
        (delete_clipboard db cid).2 = .ok ()
        ∧ (∀ c ∈ db.clipboards, c.id = cid →
            c ∉ (delete_clipboard db cid).1.clipboards)
        ∧ (∀ c ∈ db.clipboards, c.id ≠ cid →
            c ∈ (delete_clipboard db cid).1.clipboards)
        ∧ (∀ m ∈ db.messages, m.clipboard_id = cid →
            m ∉ (delete_clipboard db cid).1.messages)
        ∧ (∀ m ∈ db.messages, m.clipboard_id ≠ cid →
            m ∈ (delete_clipboard db cid).1.messages)) := by
  refine ⟨rfl, fun hne => ?_⟩
  unfold delete_clipboard
  rw [if_neg hne]
  refine ⟨rfl, ?_, ?_, ?_, ?_⟩
  · intro c hc hid
    simp [List.mem_filter, hid]
  · intro c hc hid
    exact List.mem_filter.mpr ⟨hc, by simp [hid]⟩
  · intro m hm hid
    simp [List.mem_filter, hid]
  · intro m hm hid
    exact List.mem_filter.mpr ⟨hm, by simp [hid]⟩

/-- Witness for C8 at a concrete store with two clipboards and two
messages: deleting clipboard 2 succeeds. -/
theorem c8_delete_cascades_and_protects_main_witness :
    (delete_clipboard
        { clipboards := [⟨1, "main", "t0"⟩, ⟨2, "work", "t0"⟩],
          messages := [⟨1, some "a", none, 1, "t0", "t0", false⟩,
            ⟨2, some "b", none, 2, "t0", "t0", false⟩],
          nextClipboardId := 3, nextMessageId := 3 }
        2).2 = .ok () :=
  ((c8_delete_cascades_and_protects_main
      { clipboards := [⟨1, "main", "t0"⟩, ⟨2, "work", "t0"⟩],
        messages := [⟨1, some "a", none, 1, "t0", "t0", false⟩,
          ⟨2, some "b", none, 2, "t0", "t0", false⟩],
        nextClipboardId := 3, nextMessageId := 3 }
      2).2 (by decide)).1

/-! ## Claim C1 -/

/-- A clipboard row with id 1 survives every operation: clipboard
creation only appends, rename preserves ids, delete refuses id 1 and
otherwise only removes rows with the requested (non-1) id, and message
operations never touch the clipboards table. -/
theorem clipboard_one_preserved (db : DB) (op : Op)
    (ih : ∃ c ∈ db.clipboards, c.id = 1) :
    ∃ c ∈ (applyOp db op).clipboards, c.id = 1 := by
  obtain ⟨c, hc, hid⟩ := ih
  cases op with
  | createClipboard name now =>
    simp only [applyOp]
    unfold create_clipboard
    split
    · exact ⟨c, hc, hid⟩
    · exact ⟨c, List.mem_append_left _ hc, hid⟩
  | renameClipboard cid name =>
    simp only [applyOp]
    unfold rename_clipboard
    split
    · exact ⟨c, hc, hid⟩
    · refine ⟨if c.id = cid then { c with name := name } else c,
        List.mem_map_of_mem _ hc, ?_⟩
      split <;> simp [hid]
  | deleteClipboard cid =>
    simp only [applyOp]
    unfold delete_clipboard
    split
    · exact ⟨c, hc, hid⟩
    · rename_i hne
      refine ⟨c, List.mem_filter.mpr ⟨hc, ?_⟩, hid⟩
      simp only [hid, decide_eq_true_eq]
      exact fun h => hne h.symm
  | createMessage text cid now =>
    simp only [applyOp]
    unfold create_message
    split <;> exact ⟨c, hc, hid⟩
  | updateMessage mid text now =>
    simp only [applyOp]
    unfold update_message
    dsimp only
    split <;> exact ⟨c, hc, hid⟩
  | pinMessage mid pinned now =>
    simp only [applyOp]
    exact ⟨c, hc, hid⟩
  | deleteMessage mid =>
    simp only [applyOp]
    exact ⟨c, hc, hid⟩
  | moveMessage mid cid now =>
    simp only [applyOp]
    unfold move_message
    split <;> exact ⟨c, hc, hid⟩
  | createMessageFile tok xf ff text cid now =>
    simp only [applyOp]
    unfold create_message_file
    split <;> exact ⟨c, hc, hid⟩
  | createMessageFileDirect cid tok body ct xf now =>
    simp only [applyOp]
    unfold create_message_file_direct
    split
    · exact ⟨c, hc, hid⟩
    · split <;> exact ⟨c, hc, hid⟩

/-- Claim C1 counterexample: renaming clipboard 1 is allowed, so after
process start followed by `rename(1, "work")` — a reachable state —
the only clipboard row is `(1, "work")`: no clipboard with id 1 *and*
name "main" exists any more. -/
theorem c1_counterexample :
    Reachable (applyOp (startup DB.empty "t0") (Op.renameClipboard 1 "work"))
    ∧ (applyOp (startup DB.empty "t0") (Op.renameClipboard 1 "work")).clipboards
        = [⟨1, "work", "t0"⟩]
    ∧ ("work" : String) ≠ "main" := by
  refine ⟨Reachable.step (Op.renameClipboard 1 "work") (Reachable.init "t0"),
    rfl, by decide⟩

/-- Claim C1 amended: in every reachable state a clipboard row with
id 1 exists (created at process start, never removed by any
operation), and deleting it always fails with the protected-resource
error, leaving the store unchanged; its name starts as "main" but
`rename` may change it. -/
theorem c1_clipboard_one_always_exists (db : DB) (h : Reachable db) :
    (∃ c ∈ db.clipboards, c.id = 1)
    ∧ delete_clipboard db 1
        = (db, .error (.httpError 400 "Cannot delete main clipboard")) := by
  refine ⟨?_, rfl⟩
  induction h with
  | init now => exact ⟨⟨1, "main", now⟩, by simp [startup, DB.empty], rfl⟩
  | step op h ih => exact clipboard_one_preserved _ op ih

/-- Witness for C1 amended at the startup state. -/
theorem c1_clipboard_one_always_exists_witness :
    (∃ c ∈ (startup DB.empty "t0").clipboards, c.id = 1)
    ∧ delete_clipboard (startup DB.empty "t0") 1
        = (startup DB.empty "t0",
           .error (.httpError 400 "Cannot delete main clipboard")) :=
  c1_clipboard_one_always_exists (startup DB.empty "t0") (Reachable.init "t0")

/-! ## Claim C7 -/

/-- The `ORDER BY` comparator is total: `pinned DESC` decides rows of
different pin state, and each secondary key comparison is a total
order on the timestamp strings. -/
theorem msgLE_total (order : String) (a b : Message) :
    (msgLE order a b || msgLE order b a) = true := by
  unfold msgLE
  by_cases hp : a.pinned = b.pinned
  · simp only [hp, ne_eq, not_true_eq_false, if_false, ite_not]
    split_ifs <;>
      · simp only [Bool.or_eq_true, decide_eq_true_eq]
        exact le_total _ _
  · cases ha : a.pinned <;> cases hb : b.pinned <;> simp_all

/-- The `ORDER BY` comparator is transitive. -/
theorem msgLE_trans (order : String) (a b c : Message) :
    msgLE order a b = true → msgLE order b c = true → msgLE order a c = true := by
  unfold msgLE
  cases ha : a.pinned <;> cases hb : b.pinned <;> cases hc : c.pinned <;>
    simp_all <;> split_ifs <;> intro h1 h2 <;>
    first
    | exact le_trans h1 h2
    | exact le_trans h2 h1

/-- A comparator-sorted pair never places an unpinned row before a
pinned one: `msgLE` is decided by `pinned DESC` first. -/
theorem msgLE_pinned_desc (order : String) (a b : Message)
    (h : msgLE order a b = true) : b.pinned = true → a.pinned = true := by
  intro hb
  by_contra ha
  rw [Bool.not_eq_true] at ha
  simp [msgLE, ha, hb] at h

/-- Claim C7: for every store, every clipboard filter and every
ordering string (the three recognized values and any other), the rows
returned by `list_messages` have all pinned messages before all
unpinned ones, regardless of their timestamps. -/
theorem c7_pinned_precede_unpinned (db : DB) (disk : Disk)
    (cid : Option Nat) (order : String) :
    (list_messages db disk cid order).Pairwise
      (fun a b => b.pinned = true → a.pinned = true) := by
  unfold list_messages
  apply List.Pairwise.map (augment disk)
    (fun a b (hab : msgLE order a b = true) => msgLE_pinned_desc order a b hab)
  exact List.sorted_mergeSort (msgLE_trans order) (msgLE_total order) _

end DropMind
